import Mathlib

/-!
Shallow embedding of `src/contracts.rs` of the cw-multi-test contract
adapter/dispatch layer, together with proofs about its behaviour.

Rust `Result<A, E>` is modelled as `Except E A`; a diverging `panic!` or
`unreachable!` inside the adapter layer is modelled explicitly by the
`PResult.panicked` outcome so that theorems can speak about it.  Machine
byte vectors (`Vec<u8>`, `Binary`) are lists of naturals.  The cosmwasm
environment types (`Env`, `MessageInfo`, storage, API and querier handles,
message payloads) are opaque to every function of this file — the adapter
only forwards them — so they are modelled as small token structures.
-/

namespace Cw

/-- Model of `cosmwasm_std::Binary` / `Vec<u8>`: a byte string. -/
abbrev Binary := List Nat

/-- Model of `cosmwasm_std::Empty`: the inhabited struct with no fields
(the baseline "no extension" custom-message/custom-query type). -/
structure Empty where
deriving DecidableEq, Repr

/-- Opaque handle standing for the contract storage in the execution
context; the adapter only passes it through. -/
structure Storage where
  handle : Nat
deriving DecidableEq, Repr

/-- Opaque handle standing for the host API surface in the execution
context; the adapter only passes it through. -/
structure Api where
  handle : Nat
deriving DecidableEq, Repr

/-- Opaque handle standing for the raw querier behind a
`QuerierWrapper`; `QuerierWrapper::new(deps.querier.deref())` re-wraps
exactly this value. -/
structure Querier where
  handle : Nat
deriving DecidableEq, Repr

/-- Model of `cosmwasm_std::QuerierWrapper<Q>`: a typed view (phantom in
the custom-query type `Q`) over an underlying raw querier. -/
structure QuerierWrapper (Q : Type) where
  querier : Querier
deriving DecidableEq, Repr

/-- `QuerierWrapper::new`. -/
def QuerierWrapper.new {Q : Type} (q : Querier) : QuerierWrapper Q := ⟨q⟩

/-- `Deref for QuerierWrapper`: recover the underlying raw querier. -/
def QuerierWrapper.deref {Q : Type} (w : QuerierWrapper Q) : Querier :=
  w.querier

/-- Model of `cosmwasm_std::DepsMut<Q>`: the exclusive-mutable execution
context (storage, api, querier). -/
structure DepsMut (Q : Type) where
  storage : Storage
  api : Api
  querier : QuerierWrapper Q
deriving DecidableEq, Repr

/-- Model of `cosmwasm_std::Deps<Q>`: the shared read-only execution
context (storage, api, querier). -/
structure Deps (Q : Type) where
  storage : Storage
  api : Api
  querier : QuerierWrapper Q
deriving DecidableEq, Repr

/-- Opaque token standing for `cosmwasm_std::Env` (block/environment
metadata); the adapter only forwards it. -/
structure Env where
  token : Nat
deriving DecidableEq, Repr

/-- Opaque token standing for `cosmwasm_std::MessageInfo` (caller
identity and funds); the adapter only forwards it. -/
structure MessageInfo where
  token : Nat
deriving DecidableEq, Repr

/-- Opaque payload of `CosmosMsg::Wasm` (a call into another contract);
its internal structure is never inspected by the adapter. -/
structure WasmMsg where
  payload : Nat
deriving DecidableEq, Repr

/-- Opaque payload of `CosmosMsg::Bank` (a value transfer). -/
structure BankMsg where
  payload : Nat
deriving DecidableEq, Repr

/-- Opaque payload of `CosmosMsg::Staking`. -/
structure StakingMsg where
  payload : Nat
deriving DecidableEq, Repr

/-- Opaque payload of `CosmosMsg::Distribution`. -/
structure DistributionMsg where
  payload : Nat
deriving DecidableEq, Repr

/-- Opaque payload of `CosmosMsg::Ibc` (generic inter-chain message). -/
structure IbcMsg where
  payload : Nat
deriving DecidableEq, Repr

/-- Opaque payload of `CosmosMsg::Gov`; in `customize_msg` this variant
is caught only by the `_ => panic!(..)` arm. -/
structure GovMsg where
  payload : Nat
deriving DecidableEq, Repr

/-- Model of `cosmwasm_std::CosmosMsg<C>`: the sub-message instruction
set, with the four universal variants, the custom-extension variant, the
two pass-through variants, and `Gov` (matched only by the wildcard arm of
`customize_msg`). -/
inductive CosmosMsg (C : Type) where
  | Wasm (wasm : WasmMsg)
  | Bank (bank : BankMsg)
  | Staking (staking : StakingMsg)
  | Distribution (distribution : DistributionMsg)
  | Custom (custom : C)
  | Ibc (ibc : IbcMsg)
  | Stargate (type_url : String) (value : Binary)
  | Gov (gov : GovMsg)
deriving DecidableEq, Repr

/-- Model of `cosmwasm_std::ReplyOn`. -/
inductive ReplyOn where
  | Always
  | Error
  | Success
  | Never
deriving DecidableEq, Repr

/-- Model of `cosmwasm_std::SubMsg<C>`: a sub-message with correlation
id, optional gas ceiling, and reply policy. -/
structure SubMsg (C : Type) where
  id : Nat
  msg : CosmosMsg C
  gas_limit : Option Nat
  reply_on : ReplyOn
deriving DecidableEq, Repr

/-- Model of `cosmwasm_std::Attribute`: a key/value pair. -/
structure Attribute where
  key : String
  value : String
deriving DecidableEq, Repr

/-- Model of `cosmwasm_std::Event`: a typed bag of attributes. -/
structure Event where
  ty : String
  attributes : List Attribute
deriving DecidableEq, Repr

/-- Model of `cosmwasm_std::Response<C>`: ordered sub-messages,
attributes, events, and an optional opaque data payload. -/
structure Response (C : Type) where
  messages : List (SubMsg C)
  attributes : List Attribute
  events : List Event
  data : Option Binary
deriving DecidableEq, Repr

/-- `Response::new()`: the empty response. -/
def Response.new {C : Type} : Response C :=
  { messages := [], attributes := [], events := [], data := none }

/-- `Response::add_submessages`: append sub-messages in order. -/
def Response.add_submessages {C : Type} (r : Response C)
    (msgs : List (SubMsg C)) : Response C :=
  { r with messages := r.messages ++ msgs }

/-- `Response::add_events`: append events in order. -/
def Response.add_events {C : Type} (r : Response C)
    (events : List Event) : Response C :=
  { r with events := r.events ++ events }

/-- `Response::add_attributes`: append attributes in order. -/
def Response.add_attributes {C : Type} (r : Response C)
    (attributes : List Attribute) : Response C :=
  { r with attributes := r.attributes ++ attributes }

/-- Model of `cosmwasm_std::SubMsgResult`: outcome of a previously
dispatched sub-message (success payload or error text). -/
inductive SubMsgResult where
  | ok (events : List Event) (data : Option Binary)
  | err (error : String)
deriving DecidableEq, Repr

/-- Model of `cosmwasm_std::Reply`: the structured reply envelope with
its correlation identifier. -/
structure Reply where
  id : Nat
  result : SubMsgResult
deriving DecidableEq, Repr

/-- Model of the `serde::de::DeserializeOwned` bound together with
`cosmwasm_std::from_json`: each message type knows how to decode itself
from a byte envelope, failing with a diagnostic string. -/
class DeserializeOwned (T : Type) where
  from_json : List Nat → Except String T

/-- `cosmwasm_std::from_json`, with the target type passed explicitly. -/
def from_json (T : Type) [DeserializeOwned T] (bytes : List Nat) :
    Except String T :=
  DeserializeOwned.from_json bytes

/-- Model of the `std::fmt::Display` bound on error types: every error
type renders to a display string. -/
class Display (E : Type) where
  display : E → String

instance : Display String := ⟨id⟩

/-- Modelled from serde for `cosmwasm_std::Empty`: the empty struct
decodes exactly from the two-byte JSON text `{}` (bytes 123, 125) and
fails with a parse diagnostic otherwise. -/
instance : DeserializeOwned Empty where
  from_json bytes :=
    if bytes = [123, 125] then .ok ⟨⟩
    else .error "Error parsing into type Empty"

/-- Model of the `anyhow::Error` values this file produces (`AnyError`):
each constructor records the provenance the spec distinguishes, and
`AnyError.display` below recovers the display text the Rust value
carries. -/
inductive AnyError where
  | messageFormat (diagnostic : String)
  | notImplemented (operation : String)
  | contractError (display : String)
deriving DecidableEq, Repr

/-- Display text of the modelled `anyhow::Error`: a `from_json` failure
lifted by `?` shows the serde diagnostic; `bail!` shows its literal
message; `anyhow!(err)` shows `err`'s display text. -/
def AnyError.display : AnyError → String
  | .messageFormat d => d
  | .notImplemented op => op ++ " is not implemented for contract"
  | .contractError s => s

instance : Display AnyError := ⟨AnyError.display⟩

/-- The two fatal branches of `customize_msg`: the `unreachable!()` arm
for `CosmosMsg::Custom` and the `panic!("unknown message variant ..")`
wildcard arm. -/
inductive PanicInfo where
  | unreachableCustom
  | unknownVariant
deriving DecidableEq, Repr

/-- Result of running an adapter-layer computation that may diverge with
a `panic!`/`unreachable!` in addition to returning `Ok` or `Err`. -/
inductive PResult (E A : Type) where
  | ok (value : A)
  | err (error : E)
  | panicked (info : PanicInfo)
deriving DecidableEq, Repr

/-- Embed a non-panicking `Result` into the panic-aware result type. -/
def PResult.ofExcept {E A : Type} : Except E A → PResult E A
  | .ok a => .ok a
  | .error e => .err e

/-- `map_err(|err| anyhow!(err))`: keep successes and panics, wrap a
callback error into the uniform error type via its display text. -/
def PResult.anyhowErr {E A : Type} [Display E] :
    PResult E A → PResult AnyError A
  | .ok a => .ok a
  | .err e => .err (.contractError (Display.display e))
  | .panicked p => .panicked p

/-- `ContractFn<T, C, E, Q>`: a plain (non-panicking) entry-point
function for `execute`/`instantiate`. -/
def ContractFn (T C E Q : Type) :=
  DepsMut Q → Env → MessageInfo → T → Except E (Response C)

/-- `PermissionedFn<T, C, E, Q>`: a plain entry-point function for
`sudo`/`migrate`. -/
def PermissionedFn (T C E Q : Type) :=
  DepsMut Q → Env → T → Except E (Response C)

/-- `ReplyFn<C, E, Q>`: a plain entry-point function for `reply`. -/
def ReplyFn (C E Q : Type) :=
  DepsMut Q → Env → Reply → Except E (Response C)

/-- `QueryFn<T, E, Q>`: a plain entry-point function for `query`. -/
def QueryFn (T E Q : Type) :=
  Deps Q → Env → T → Except E Binary

/-- `ContractClosure<T, C, E, Q>`: a boxed, possibly-panicking stored
callback for `execute`/`instantiate` (the bridging adapter can panic
during response lifting, hence `PResult`). -/
def ContractClosure (T C E Q : Type) :=
  DepsMut Q → Env → MessageInfo → T → PResult E (Response C)

/-- `PermissionedClosure<T, C, E, Q>`: a boxed stored callback for
`sudo`/`migrate`. -/
def PermissionedClosure (T C E Q : Type) :=
  DepsMut Q → Env → T → PResult E (Response C)

/-- `ReplyClosure<C, E, Q>`: a boxed stored callback for `reply`. -/
def ReplyClosure (C E Q : Type) :=
  DepsMut Q → Env → Reply → PResult E (Response C)

/-- `QueryClosure<T, E, Q>`: a boxed stored callback for `query`. -/
def QueryClosure (T E Q : Type) :=
  Deps Q → Env → T → PResult E Binary

/-- `Box::new` on a plain `ContractFn`: store it as a closure (a plain
function never reaches a panic of the adapter layer). -/
def boxContractFn {T C E Q : Type} (f : ContractFn T C E Q) :
    ContractClosure T C E Q :=
  fun deps env info msg => PResult.ofExcept (f deps env info msg)

/-- `Box::new` on a plain `PermissionedFn`. -/
def boxPermissionedFn {T C E Q : Type} (f : PermissionedFn T C E Q) :
    PermissionedClosure T C E Q :=
  fun deps env msg => PResult.ofExcept (f deps env msg)

/-- `Box::new` on a plain `ReplyFn`. -/
def boxReplyFn {C E Q : Type} (f : ReplyFn C E Q) :
    ReplyClosure C E Q :=
  fun deps env msg => PResult.ofExcept (f deps env msg)

/-- `Box::new` on a plain `QueryFn`. -/
def boxQueryFn {T E Q : Type} (f : QueryFn T E Q) :
    QueryClosure T E Q :=
  fun deps env msg => PResult.ofExcept (f deps env msg)

/-- `decustomize_deps_mut`: strip the custom-query capability from an
exclusive context — storage and api pass through, the querier is
re-wrapped over the same underlying raw querier. -/
def decustomize_deps_mut {Q : Type} (deps : DepsMut Q) : DepsMut Empty :=
  { storage := deps.storage
    api := deps.api
    querier := QuerierWrapper.new deps.querier.deref }

/-- `decustomize_deps`: strip the custom-query capability from a shared
read-only context. -/
def decustomize_deps {Q : Type} (deps : Deps Q) : Deps Empty :=
  { storage := deps.storage
    api := deps.api
    querier := QuerierWrapper.new deps.querier.deref }

/-- `customize_msg<C>`: lift one baseline sub-message to the extended
type.  The four universal variants and the two pass-through variants are
copied unchanged; `Custom` hits the `unreachable!()` arm and any other
shape (`Gov`) hits the `panic!("unknown message variant ..")` arm — both
modelled as fatal outcomes. -/
def customize_msg {C : Type} (msg : SubMsg Empty) :
    Except PanicInfo (SubMsg C) := do
  let m ← match msg.msg with
    | CosmosMsg.Wasm wasm => pure (CosmosMsg.Wasm wasm)
    | CosmosMsg.Bank bank => pure (CosmosMsg.Bank bank)
    | CosmosMsg.Staking staking => pure (CosmosMsg.Staking staking)
    | CosmosMsg.Distribution distribution =>
        pure (CosmosMsg.Distribution distribution)
    | CosmosMsg.Custom _ => throw PanicInfo.unreachableCustom
    | CosmosMsg.Ibc ibc => pure (CosmosMsg.Ibc ibc)
    | CosmosMsg.Stargate type_url value =>
        pure (CosmosMsg.Stargate type_url value)
    | CosmosMsg.Gov _ => throw PanicInfo.unknownVariant
  return { id := msg.id
           msg := m
           gas_limit := msg.gas_limit
           reply_on := msg.reply_on }

/-- `customize_response<C>`: lift a baseline `Response` by lifting each
sub-message in order (propagating the first fatal outcome) and copying
events, attributes and the data payload unchanged. -/
def customize_response {C : Type} (resp : Response Empty) :
    Except PanicInfo (Response C) := do
  let msgs ← resp.messages.mapM (customize_msg (C := C))
  let customized_resp :=
    ((Response.new.add_submessages msgs).add_events
        resp.events).add_attributes resp.attributes
  return { customized_resp with data := resp.data }

/-- `customize_contract_fn`: adapt a baseline `execute`/`instantiate`
callback to the extended environment — strip the custom-query capability
on the way in and lift the response on the way out (`.map` in the Rust
source; a fatal lift propagates as a panic). -/
def customize_contract_fn {T C E Q : Type} (raw_fn : ContractFn T Empty E Empty) :
    ContractClosure T C E Q :=
  fun deps env info msg =>
    match raw_fn (decustomize_deps_mut deps) env info msg with
    | .ok resp =>
        match customize_response (C := C) resp with
        | .ok lifted => .ok lifted
        | .error p => .panicked p
    | .error e => .err e

/-- `customize_query_fn`: adapt a baseline `query` callback — strip the
custom-query capability on the way in; the result (`Binary` or error) is
returned exactly as produced, with no translation. -/
def customize_query_fn {T E Q : Type} (raw_fn : QueryFn T E Empty) :
    QueryClosure T E Q :=
  fun deps env msg => PResult.ofExcept (raw_fn (decustomize_deps deps) env msg)

/-- `customize_permissioned_fn`: adapt a baseline `sudo`/`migrate`/`reply`
style callback — strip the custom-query capability on the way in and lift
the response on the way out. -/
def customize_permissioned_fn {T C E Q : Type}
    (raw_fn : PermissionedFn T Empty E Empty) :
    PermissionedClosure T C E Q :=
  fun deps env msg =>
    match raw_fn (decustomize_deps_mut deps) env msg with
    | .ok resp =>
        match customize_response (C := C) resp with
        | .ok lifted => .ok lifted
        | .error p => .panicked p
    | .error e => .err e

/-- `ContractWrapper`: the adapter, holding the three mandatory stored
callbacks and the three optional slots. -/
structure ContractWrapper
    (T1 T2 T3 E1 E2 E3 C Q T4 E4 E5 T6 E6 : Type) where
  execute_fn : ContractClosure T1 C E1 Q
  instantiate_fn : ContractClosure T2 C E2 Q
  query_fn : QueryClosure T3 E3 Q
  sudo_fn : Option (PermissionedClosure T4 C E4 Q)
  reply_fn : Option (ReplyClosure C E5 Q)
  migrate_fn : Option (PermissionedClosure T6 C E6 Q)

/-- `ContractWrapper::new`: direct construction storing the mandatory
trio as-is; optional slots stay empty (`T4`/`T6` default to `Empty`,
`E4`/`E5`/`E6` default to `AnyError`). -/
def ContractWrapper.new {T1 T2 T3 E1 E2 E3 C Q : Type}
    (execute_fn : ContractFn T1 C E1 Q)
    (instantiate_fn : ContractFn T2 C E2 Q)
    (query_fn : QueryFn T3 E3 Q) :
    ContractWrapper T1 T2 T3 E1 E2 E3 C Q Empty AnyError AnyError Empty AnyError :=
  { execute_fn := boxContractFn execute_fn
    instantiate_fn := boxContractFn instantiate_fn
    query_fn := boxQueryFn query_fn
    sudo_fn := none
    reply_fn := none
    migrate_fn := none }

/-- `ContractWrapper::new_with_empty`: bridging construction — the
mandatory trio is written against the baseline environment and stored
behind the customizing adapters; optional slots stay empty. -/
def ContractWrapper.new_with_empty {T1 T2 T3 E1 E2 E3 C Q : Type}
    (execute_fn : ContractFn T1 Empty E1 Empty)
    (instantiate_fn : ContractFn T2 Empty E2 Empty)
    (query_fn : QueryFn T3 E3 Empty) :
    ContractWrapper T1 T2 T3 E1 E2 E3 C Q Empty AnyError AnyError Empty AnyError :=
  { execute_fn := customize_contract_fn execute_fn
    instantiate_fn := customize_contract_fn instantiate_fn
    query_fn := customize_query_fn query_fn
    sudo_fn := none
    reply_fn := none
    migrate_fn := none }

/-- `ContractWrapper::with_sudo`: populate the `sudo` slot (direct form),
re-typing the wrapper at the new message/error types for that slot. -/
def ContractWrapper.with_sudo {T1 T2 T3 E1 E2 E3 C Q T4 E4 E5 T6 E6 A B : Type}
    (w : ContractWrapper T1 T2 T3 E1 E2 E3 C Q T4 E4 E5 T6 E6)
    (sudo_fn : PermissionedFn A C B Q) :
    ContractWrapper T1 T2 T3 E1 E2 E3 C Q A B E5 T6 E6 :=
  { execute_fn := w.execute_fn
    instantiate_fn := w.instantiate_fn
    query_fn := w.query_fn
    sudo_fn := some (boxPermissionedFn sudo_fn)
    reply_fn := w.reply_fn
    migrate_fn := w.migrate_fn }

/-- `ContractWrapper::with_sudo_empty`: populate the `sudo` slot in
bridging form. -/
def ContractWrapper.with_sudo_empty {T1 T2 T3 E1 E2 E3 C Q T4 E4 E5 T6 E6 A B : Type}
    (w : ContractWrapper T1 T2 T3 E1 E2 E3 C Q T4 E4 E5 T6 E6)
    (sudo_fn : PermissionedFn A Empty B Empty) :
    ContractWrapper T1 T2 T3 E1 E2 E3 C Q A B E5 T6 E6 :=
  { execute_fn := w.execute_fn
    instantiate_fn := w.instantiate_fn
    query_fn := w.query_fn
    sudo_fn := some (customize_permissioned_fn sudo_fn)
    reply_fn := w.reply_fn
    migrate_fn := w.migrate_fn }

/-- `ContractWrapper::with_reply`: populate the `reply` slot (direct
form). -/
def ContractWrapper.with_reply {T1 T2 T3 E1 E2 E3 C Q T4 E4 E5 T6 E6 B : Type}
    (w : ContractWrapper T1 T2 T3 E1 E2 E3 C Q T4 E4 E5 T6 E6)
    (reply_fn : ReplyFn C B Q) :
    ContractWrapper T1 T2 T3 E1 E2 E3 C Q T4 E4 B T6 E6 :=
  { execute_fn := w.execute_fn
    instantiate_fn := w.instantiate_fn
    query_fn := w.query_fn
    sudo_fn := w.sudo_fn
    reply_fn := some (boxReplyFn reply_fn)
    migrate_fn := w.migrate_fn }

/-- `ContractWrapper::with_reply_empty`: populate the `reply` slot in
bridging form (the reply envelope is structural, so only the context is
bridged and the response lifted). -/
def ContractWrapper.with_reply_empty {T1 T2 T3 E1 E2 E3 C Q T4 E4 E5 T6 E6 B : Type}
    (w : ContractWrapper T1 T2 T3 E1 E2 E3 C Q T4 E4 E5 T6 E6)
    (reply_fn : ReplyFn Empty B Empty) :
    ContractWrapper T1 T2 T3 E1 E2 E3 C Q T4 E4 B T6 E6 :=
  { execute_fn := w.execute_fn
    instantiate_fn := w.instantiate_fn
    query_fn := w.query_fn
    sudo_fn := w.sudo_fn
    reply_fn := some (customize_permissioned_fn (T := Reply) reply_fn)
    migrate_fn := w.migrate_fn }

/-- `ContractWrapper::with_migrate`: populate the `migrate` slot (direct
form). -/
def ContractWrapper.with_migrate {T1 T2 T3 E1 E2 E3 C Q T4 E4 E5 T6 E6 A B : Type}
    (w : ContractWrapper T1 T2 T3 E1 E2 E3 C Q T4 E4 E5 T6 E6)
    (migrate_fn : PermissionedFn A C B Q) :
    ContractWrapper T1 T2 T3 E1 E2 E3 C Q T4 E4 E5 A B :=
  { execute_fn := w.execute_fn
    instantiate_fn := w.instantiate_fn
    query_fn := w.query_fn
    sudo_fn := w.sudo_fn
    reply_fn := w.reply_fn
    migrate_fn := some (boxPermissionedFn migrate_fn) }

/-- `ContractWrapper::with_migrate_empty`: populate the `migrate` slot in
bridging form. -/
def ContractWrapper.with_migrate_empty {T1 T2 T3 E1 E2 E3 C Q T4 E4 E5 T6 E6 A B : Type}
    (w : ContractWrapper T1 T2 T3 E1 E2 E3 C Q T4 E4 E5 T6 E6)
    (migrate_fn : PermissionedFn A Empty B Empty) :
    ContractWrapper T1 T2 T3 E1 E2 E3 C Q T4 E4 E5 A B :=
  { execute_fn := w.execute_fn
    instantiate_fn := w.instantiate_fn
    query_fn := w.query_fn
    sudo_fn := w.sudo_fn
    reply_fn := w.reply_fn
    migrate_fn := some (customize_permissioned_fn migrate_fn) }

/-- `Contract::execute` for `ContractWrapper`: decode the byte envelope
into `T1` (a failure propagates via `?` as the message-format error),
then invoke the stored execute callback and wrap its error through
`anyhow!`. -/
def ContractWrapper.execute {T1 T2 T3 E1 E2 E3 C Q T4 E4 E5 T6 E6 : Type}
    [DeserializeOwned T1] [Display E1]
    (w : ContractWrapper T1 T2 T3 E1 E2 E3 C Q T4 E4 E5 T6 E6)
    (deps : DepsMut Q) (env : Env) (info : MessageInfo) (msg : List Nat) :
    PResult AnyError (Response C) :=
  match from_json T1 msg with
  | .error d => .err (.messageFormat d)
  | .ok m => (w.execute_fn deps env info m).anyhowErr

/-- `Contract::instantiate` for `ContractWrapper`: decode into `T2`,
invoke the stored instantiate callback, wrap its error through
`anyhow!`. -/
def ContractWrapper.instantiate {T1 T2 T3 E1 E2 E3 C Q T4 E4 E5 T6 E6 : Type}
    [DeserializeOwned T2] [Display E2]
    (w : ContractWrapper T1 T2 T3 E1 E2 E3 C Q T4 E4 E5 T6 E6)
    (deps : DepsMut Q) (env : Env) (info : MessageInfo) (msg : List Nat) :
    PResult AnyError (Response C) :=
  match from_json T2 msg with
  | .error d => .err (.messageFormat d)
  | .ok m => (w.instantiate_fn deps env info m).anyhowErr

/-- `Contract::query` for `ContractWrapper`: decode into `T3`, invoke
the stored query callback, wrap its error through `anyhow!`. -/
def ContractWrapper.query {T1 T2 T3 E1 E2 E3 C Q T4 E4 E5 T6 E6 : Type}
    [DeserializeOwned T3] [Display E3]
    (w : ContractWrapper T1 T2 T3 E1 E2 E3 C Q T4 E4 E5 T6 E6)
    (deps : Deps Q) (env : Env) (msg : List Nat) :
    PResult AnyError Binary :=
  match from_json T3 msg with
  | .error d => .err (.messageFormat d)
  | .ok m => (w.query_fn deps env m).anyhowErr

/-- `Contract::sudo` for `ContractWrapper`: decode into `T4` first, then
dispatch to the stored sudo callback, or `bail!("sudo is not implemented
for contract")` when the slot was never populated. -/
def ContractWrapper.sudo {T1 T2 T3 E1 E2 E3 C Q T4 E4 E5 T6 E6 : Type}
    [DeserializeOwned T4] [Display E4]
    (w : ContractWrapper T1 T2 T3 E1 E2 E3 C Q T4 E4 E5 T6 E6)
    (deps : DepsMut Q) (env : Env) (msg : List Nat) :
    PResult AnyError (Response C) :=
  match from_json T4 msg with
  | .error d => .err (.messageFormat d)
  | .ok m =>
      match w.sudo_fn with
      | some g => (g deps env m).anyhowErr
      | none => .err (.notImplemented "sudo")

/-- `Contract::reply` for `ContractWrapper`: the structured reply
envelope is passed through with no decoding step; dispatch to the stored
reply callback, or `bail!("reply is not implemented for contract")` when
the slot was never populated. -/
def ContractWrapper.reply {T1 T2 T3 E1 E2 E3 C Q T4 E4 E5 T6 E6 : Type}
    [Display E5]
    (w : ContractWrapper T1 T2 T3 E1 E2 E3 C Q T4 E4 E5 T6 E6)
    (deps : DepsMut Q) (env : Env) (reply_data : Reply) :
    PResult AnyError (Response C) :=
  match w.reply_fn with
  | some g => (g deps env reply_data).anyhowErr
  | none => .err (.notImplemented "reply")

/-- `Contract::migrate` for `ContractWrapper`: decode into `T6` first,
then dispatch to the stored migrate callback, or `bail!("migrate is not
implemented for contract")` when the slot was never populated. -/
def ContractWrapper.migrate {T1 T2 T3 E1 E2 E3 C Q T4 E4 E5 T6 E6 : Type}
    [DeserializeOwned T6] [Display E6]
    (w : ContractWrapper T1 T2 T3 E1 E2 E3 C Q T4 E4 E5 T6 E6)
    (deps : DepsMut Q) (env : Env) (msg : List Nat) :
    PResult AnyError (Response C) :=
  match from_json T6 msg with
  | .error d => .err (.messageFormat d)
  | .ok m =>
      match w.migrate_fn with
      | some g => (g deps env m).anyhowErr
      | none => .err (.notImplemented "migrate")

/-- Classification of a baseline sub-message by the arm of
`customize_msg` that handles it: `true` for the four universal variants
and the two pass-through variants (copied unchanged), `false` for the
two fatal arms (`Custom`, wildcard/`Gov`). -/
def liftableShape : CosmosMsg Empty → Bool
  | CosmosMsg.Custom _ => false
  | CosmosMsg.Gov _ => false
  | _ => true

/-- Spec-side comparison relation: a baseline sub-message instruction
and an extended one carry the same variant with the same payload. -/
def msgContentEq {C : Type} : CosmosMsg Empty → CosmosMsg C → Prop
  | CosmosMsg.Wasm a, CosmosMsg.Wasm b => a = b
  | CosmosMsg.Bank a, CosmosMsg.Bank b => a = b
  | CosmosMsg.Staking a, CosmosMsg.Staking b => a = b
  | CosmosMsg.Distribution a, CosmosMsg.Distribution b => a = b
  | CosmosMsg.Ibc a, CosmosMsg.Ibc b => a = b
  | CosmosMsg.Stargate u v, CosmosMsg.Stargate u2 v2 => u = u2 ∧ v = v2
  | _, _ => False

/-- Spec-side comparison relation on whole sub-messages: correlation id,
gas ceiling and reply policy are preserved and the instruction carries
the same content. -/
def subMsgPreserved {C : Type} (a : SubMsg Empty) (b : SubMsg C) : Prop :=
  b.id = a.id ∧ b.gas_limit = a.gas_limit ∧ b.reply_on = a.reply_on ∧
    msgContentEq a.msg b.msg

/-- A small chain-specific custom-extension type used to instantiate the
type parameter `C` in concrete scenarios. -/
structure MyCustom where
  flag : Nat
deriving DecidableEq, Repr

/-- Concrete exclusive-mutable execution context. -/
def deps0 : DepsMut Empty :=
  { storage := ⟨5⟩, api := ⟨6⟩, querier := ⟨⟨7⟩⟩ }

/-- Concrete shared read-only execution context. -/
def rdeps0 : Deps Empty :=
  { storage := ⟨5⟩, api := ⟨6⟩, querier := ⟨⟨7⟩⟩ }

/-- Concrete environment token. -/
def env0 : Env := ⟨0⟩

/-- Concrete caller-identity token. -/
def info0 : MessageInfo := ⟨0⟩

/-- The byte envelope `{}`, which decodes to `Empty`. -/
def okBytes : List Nat := [123, 125]

/-- A byte envelope that does not decode to `Empty`. -/
def badBytes : List Nat := [48]

/-- Concrete execute callback. -/
def execute0 : ContractFn Empty Empty String Empty :=
  fun _ _ _ _ => .ok Response.new

/-- Concrete instantiate callback. -/
def instantiate0 : ContractFn Empty Empty String Empty :=
  fun _ _ _ _ => .ok Response.new

/-- Concrete query callback. -/
def query0 : QueryFn Empty String Empty :=
  fun _ _ _ => .ok [1, 2, 3]

/-- Concrete sudo callback. -/
def sudo0 : PermissionedFn Empty Empty String Empty :=
  fun _ _ _ => .ok Response.new

/-- Concrete reply callback. -/
def reply0 : ReplyFn Empty String Empty :=
  fun _ _ _ => .ok Response.new

/-- Concrete migrate callback. -/
def migrate0 : PermissionedFn Empty Empty String Empty :=
  fun _ _ _ => .error "migrate rejected"

/-- A wrapper built only via `new`: no optional slot populated. -/
def w0 : ContractWrapper Empty Empty Empty String String String Empty Empty
    Empty AnyError AnyError Empty AnyError :=
  ContractWrapper.new execute0 instantiate0 query0

/-- A wrapper with all three optional slots populated. -/
def wC : ContractWrapper Empty Empty Empty String String String Empty Empty
    Empty String String Empty String :=
  (((ContractWrapper.new execute0 instantiate0 query0).with_sudo
      sudo0).with_reply reply0).with_migrate migrate0

/-- A concrete reply envelope. -/
def reply_data0 : Reply := { id := 3, result := SubMsgResult.err "boom" }

/-- A baseline response exercising each copied sub-message variant plus
attributes, events and a data payload. -/
def resp5 : Response Empty :=
  { messages :=
      [ { id := 1, msg := CosmosMsg.Wasm ⟨7⟩, gas_limit := some 100,
          reply_on := ReplyOn.Always },
        { id := 2, msg := CosmosMsg.Bank ⟨8⟩, gas_limit := none,
          reply_on := ReplyOn.Never },
        { id := 3, msg := CosmosMsg.Staking ⟨9⟩, gas_limit := none,
          reply_on := ReplyOn.Success },
        { id := 4, msg := CosmosMsg.Distribution ⟨10⟩, gas_limit := none,
          reply_on := ReplyOn.Error },
        { id := 5, msg := CosmosMsg.Ibc ⟨11⟩, gas_limit := none,
          reply_on := ReplyOn.Never },
        { id := 6, msg := CosmosMsg.Stargate "/cosmos.gov.v1.MsgVote" [1, 2],
          gas_limit := none, reply_on := ReplyOn.Never } ],
    attributes := [⟨"action", "transfer"⟩],
    events := [⟨"wasm", [⟨"sender", "alice"⟩]⟩],
    data := some [9, 9] }

/-- A baseline response whose only sub-message carries the
custom-extension variant (`Custom(Empty)` — producible, since `Empty` is
inhabited). -/
def respCustom : Response Empty :=
  { messages :=
      [ { id := 1, msg := CosmosMsg.Custom ⟨⟩, gas_limit := none,
          reply_on := ReplyOn.Never } ],
    attributes := [], events := [], data := none }

/-- A baseline execute callback that returns `respCustom`. -/
def executeCustom : ContractFn Empty Empty String Empty :=
  fun _ _ _ _ => .ok respCustom

/-- A second concrete sudo callback, used to exercise slot replacement. -/
def sudo1 : PermissionedFn Empty Empty String Empty :=
  fun _ _ _ => .error "sudo rejected"

/-- C3: for every byte envelope decodable to the execute callback's
message type, `execute` invokes the stored execute callback with the
decoded value (in this pure model the dispatch result is a function of
that single application, for every stored callback — i.e. the callback
is consulted exactly once); a successful `Response` is returned
unchanged, and a callback error is wrapped into the uniform error type
with its display text preserved. -/
theorem execute_invokes_stored_callback
    {T1 T2 T3 E1 E2 E3 C Q T4 E4 E5 T6 E6 : Type}
    [DeserializeOwned T1] [Display E1]
    (w : ContractWrapper T1 T2 T3 E1 E2 E3 C Q T4 E4 E5 T6 E6)
    (deps : DepsMut Q) (env : Env) (info : MessageInfo)
    (msg : List Nat) (m : T1)
    (h : from_json T1 msg = Except.ok m) :
    (∀ r, w.execute_fn deps env info m = PResult.ok r →
        w.execute deps env info msg = PResult.ok r) ∧
    (∀ e, w.execute_fn deps env info m = PResult.err e →
        w.execute deps env info msg =
          PResult.err (AnyError.contractError (Display.display e))) := by
  constructor
  · intro r hr
    simp [ContractWrapper.execute, h, hr, PResult.anyhowErr]
  · intro e he
    simp [ContractWrapper.execute, h, he, PResult.anyhowErr]

/-- Witness for C3 at the wrapper `w0` and the envelope `{}`. -/
theorem execute_invokes_stored_callback_witness :
    from_json Empty okBytes = Except.ok ⟨⟩ ∧
    ((∀ r, w0.execute_fn deps0 env0 info0 ⟨⟩ = PResult.ok r →
        w0.execute deps0 env0 info0 okBytes = PResult.ok r) ∧
     (∀ e, w0.execute_fn deps0 env0 info0 ⟨⟩ = PResult.err e →
        w0.execute deps0 env0 info0 okBytes =
          PResult.err (AnyError.contractError (Display.display e)))) :=
  ⟨rfl, execute_invokes_stored_callback w0 deps0 env0 info0 okBytes ⟨⟩ rfl⟩

/-- C4: for every byte envelope that fails to decode to the execute
callback's message type, `execute` returns the message-format error
carrying the decode diagnostic; the conclusion holds for every wrapper
with every stored execute callback, so the stored callback is never
consulted. -/
theorem execute_decode_failure_skips_callback
    {T1 T2 T3 E1 E2 E3 C Q T4 E4 E5 T6 E6 : Type}
    [DeserializeOwned T1] [Display E1]
    (w : ContractWrapper T1 T2 T3 E1 E2 E3 C Q T4 E4 E5 T6 E6)
    (deps : DepsMut Q) (env : Env) (info : MessageInfo)
    (msg : List Nat) (d : String)
    (h : from_json T1 msg = Except.error d) :
    w.execute deps env info msg =
      PResult.err (AnyError.messageFormat d) := by
  simp [ContractWrapper.execute, h]

/-- Witness for C4 at the wrapper `w0` and a malformed envelope. -/
theorem execute_decode_failure_skips_callback_witness :
    from_json Empty badBytes =
      Except.error "Error parsing into type Empty" ∧
    w0.execute deps0 env0 info0 badBytes =
      PResult.err (AnyError.messageFormat "Error parsing into type Empty") :=
  ⟨rfl, execute_decode_failure_skips_callback w0 deps0 env0 info0 badBytes
    "Error parsing into type Empty" rfl⟩

/-- C1 counterexample: `sudo` decodes the byte envelope before checking
whether the sudo slot is populated, so on the wrapper `w0` (whose sudo
slot was never populated) a malformed envelope yields the decode error,
not the not-implemented error — refuting "fails with the not-implemented
condition for every `m`, regardless of whether `m` is well-formed". -/
theorem sudo_unpopulated_malformed_counterexample :
    w0.sudo deps0 env0 badBytes =
      PResult.err (AnyError.messageFormat "Error parsing into type Empty") ∧
    w0.sudo deps0 env0 badBytes ≠
      PResult.err (AnyError.notImplemented "sudo") := by
  exact ⟨rfl, by decide⟩

/-- C1 (amended): for any wrapper whose sudo slot was never populated,
`sudo` fails with the not-implemented error for every byte envelope that
decodes to the sudo message type; an envelope that does not decode fails
with the message-format error instead, because decoding happens before
the slot is examined. -/
theorem sudo_unpopulated_not_implemented
    {T1 T2 T3 E1 E2 E3 C Q T4 E4 E5 T6 E6 : Type}
    [DeserializeOwned T4] [Display E4]
    (w : ContractWrapper T1 T2 T3 E1 E2 E3 C Q T4 E4 E5 T6 E6)
    (deps : DepsMut Q) (env : Env) (msg : List Nat) (m : T4)
    (hnone : w.sudo_fn = none)
    (hm : from_json T4 msg = Except.ok m) :
    w.sudo deps env msg =
      PResult.err (AnyError.notImplemented "sudo") := by
  simp [ContractWrapper.sudo, hm, hnone]

/-- Witness for amended C1 at the wrapper `w0` and the envelope `{}`. -/
theorem sudo_unpopulated_not_implemented_witness :
    w0.sudo_fn = none ∧ from_json Empty okBytes = Except.ok ⟨⟩ ∧
    w0.sudo deps0 env0 okBytes =
      PResult.err (AnyError.notImplemented "sudo") :=
  ⟨rfl, rfl, sudo_unpopulated_not_implemented w0 deps0 env0 okBytes ⟨⟩ rfl rfl⟩

/-- C7: a wrapper built only via `new` dispatches `migrate` (on a
decodable envelope) to the not-implemented error, whose display text
names the "migrate" operation, distinguishing it from a contract
rejection. -/
theorem migrate_new_not_implemented
    {T1 T2 T3 E1 E2 E3 C Q : Type}
    (e : ContractFn T1 C E1 Q) (i : ContractFn T2 C E2 Q)
    (q : QueryFn T3 E3 Q)
    (deps : DepsMut Q) (env : Env) (msg : List Nat) (m : Empty)
    (hm : from_json Empty msg = Except.ok m) :
    (ContractWrapper.new e i q).migrate deps env msg =
      PResult.err (AnyError.notImplemented "migrate") ∧
    AnyError.display (AnyError.notImplemented "migrate") =
      "migrate is not implemented for contract" := by
  refine ⟨?_, rfl⟩
  simp [ContractWrapper.migrate, hm, ContractWrapper.new]

/-- Witness for C7 at concrete callbacks and the envelope `{}`. -/
theorem migrate_new_not_implemented_witness :
    from_json Empty okBytes = Except.ok ⟨⟩ ∧
    ((ContractWrapper.new execute0 instantiate0 query0).migrate deps0 env0
        okBytes = PResult.err (AnyError.notImplemented "migrate") ∧
      AnyError.display (AnyError.notImplemented "migrate") =
        "migrate is not implemented for contract") :=
  ⟨rfl, migrate_new_not_implemented execute0 instantiate0 query0 deps0 env0
    okBytes ⟨⟩ rfl⟩

/-- C6: `reply` performs no decoding step — when the reply slot is
populated the stored reply callback receives exactly the structured
reply envelope, and no invocation of `reply` can produce a
message-format (decode) error. -/
theorem reply_passthrough_no_decode
    {T1 T2 T3 E1 E2 E3 C Q T4 E4 E5 T6 E6 : Type} [Display E5]
    (w : ContractWrapper T1 T2 T3 E1 E2 E3 C Q T4 E4 E5 T6 E6)
    (f : ReplyClosure C E5 Q)
    (deps : DepsMut Q) (env : Env) (r : Reply)
    (h : w.reply_fn = some f) :
    w.reply deps env r = (f deps env r).anyhowErr ∧
    (∀ d, w.reply deps env r ≠
      PResult.err (AnyError.messageFormat d)) := by
  constructor
  · simp [ContractWrapper.reply, h]
  · intro d
    simp only [ContractWrapper.reply, h]
    cases f deps env r <;> simp [PResult.anyhowErr]

/-- Witness for C6 at the wrapper `wC` and a concrete reply envelope. -/
theorem reply_passthrough_no_decode_witness :
    wC.reply_fn = some (boxReplyFn reply0) ∧
    (wC.reply deps0 env0 reply_data0 =
        (boxReplyFn reply0 deps0 env0 reply_data0).anyhowErr ∧
      ∀ d, wC.reply deps0 env0 reply_data0 ≠
        PResult.err (AnyError.messageFormat d)) :=
  ⟨rfl, reply_passthrough_no_decode wC (boxReplyFn reply0) deps0 env0
    reply_data0 rfl⟩

/-- C8: applying `with_sudo`, `with_reply`, `with_migrate` after `new`
in any of the six orders yields the same wrapper, and on that wrapper
each of the six operations dispatches to the correspondingly-named
callback (after the decode step, where one exists). -/
theorem builder_order_commutes
    {T1 T2 T3 E1 E2 E3 C Q SA SE RE MA ME : Type}
    [DeserializeOwned T1] [Display E1] [DeserializeOwned T2] [Display E2]
    [DeserializeOwned T3] [Display E3] [DeserializeOwned SA] [Display SE]
    [Display RE] [DeserializeOwned MA] [Display ME]
    (e : ContractFn T1 C E1 Q) (i : ContractFn T2 C E2 Q)
    (q : QueryFn T3 E3 Q) (s : PermissionedFn SA C SE Q)
    (r : ReplyFn C RE Q) (m : PermissionedFn MA C ME Q) :
    ((((ContractWrapper.new e i q).with_sudo s).with_reply r).with_migrate m =
        (((ContractWrapper.new e i q).with_sudo s).with_migrate m).with_reply r ∧
      (((ContractWrapper.new e i q).with_sudo s).with_reply r).with_migrate m =
        (((ContractWrapper.new e i q).with_reply r).with_sudo s).with_migrate m ∧
      (((ContractWrapper.new e i q).with_sudo s).with_reply r).with_migrate m =
        (((ContractWrapper.new e i q).with_reply r).with_migrate m).with_sudo s ∧
      (((ContractWrapper.new e i q).with_sudo s).with_reply r).with_migrate m =
        (((ContractWrapper.new e i q).with_migrate m).with_sudo s).with_reply r ∧
      (((ContractWrapper.new e i q).with_sudo s).with_reply r).with_migrate m =
        (((ContractWrapper.new e i q).with_migrate m).with_reply r).with_sudo s) ∧
    (∀ deps env info msg x, from_json T1 msg = Except.ok x →
      ((((ContractWrapper.new e i q).with_sudo s).with_reply r).with_migrate
          m).execute deps env info msg =
        (PResult.ofExcept (e deps env info x)).anyhowErr) ∧
    (∀ deps env info msg x, from_json T2 msg = Except.ok x →
      ((((ContractWrapper.new e i q).with_sudo s).with_reply r).with_migrate
          m).instantiate deps env info msg =
        (PResult.ofExcept (i deps env info x)).anyhowErr) ∧
    (∀ deps env msg x, from_json T3 msg = Except.ok x →
      ((((ContractWrapper.new e i q).with_sudo s).with_reply r).with_migrate
          m).query deps env msg =
        (PResult.ofExcept (q deps env x)).anyhowErr) ∧
    (∀ deps env msg x, from_json SA msg = Except.ok x →
      ((((ContractWrapper.new e i q).with_sudo s).with_reply r).with_migrate
          m).sudo deps env msg =
        (PResult.ofExcept (s deps env x)).anyhowErr) ∧
    (∀ deps env rd,
      ((((ContractWrapper.new e i q).with_sudo s).with_reply r).with_migrate
          m).reply deps env rd =
        (PResult.ofExcept (r deps env rd)).anyhowErr) ∧
    (∀ deps env msg x, from_json MA msg = Except.ok x →
      ((((ContractWrapper.new e i q).with_sudo s).with_reply r).with_migrate
          m).migrate deps env msg =
        (PResult.ofExcept (m deps env x)).anyhowErr) := by
  refine ⟨⟨rfl, rfl, rfl, rfl, rfl⟩, ?_, ?_, ?_, ?_, ?_, ?_⟩
  · intro deps env info msg x hx
    simp [ContractWrapper.execute, hx, ContractWrapper.new,
      ContractWrapper.with_sudo, ContractWrapper.with_reply,
      ContractWrapper.with_migrate, boxContractFn]
  · intro deps env info msg x hx
    simp [ContractWrapper.instantiate, hx, ContractWrapper.new,
      ContractWrapper.with_sudo, ContractWrapper.with_reply,
      ContractWrapper.with_migrate, boxContractFn]
  · intro deps env msg x hx
    simp [ContractWrapper.query, hx, ContractWrapper.new,
      ContractWrapper.with_sudo, ContractWrapper.with_reply,
      ContractWrapper.with_migrate, boxQueryFn]
  · intro deps env msg x hx
    simp [ContractWrapper.sudo, hx, ContractWrapper.new,
      ContractWrapper.with_sudo, ContractWrapper.with_reply,
      ContractWrapper.with_migrate, boxPermissionedFn]
  · intro deps env rd
    simp [ContractWrapper.reply, ContractWrapper.new,
      ContractWrapper.with_sudo, ContractWrapper.with_reply,
      ContractWrapper.with_migrate, boxReplyFn]
  · intro deps env msg x hx
    simp [ContractWrapper.migrate, hx, ContractWrapper.new,
      ContractWrapper.with_sudo, ContractWrapper.with_reply,
      ContractWrapper.with_migrate, boxPermissionedFn]

/-- Witness for C8: all six operations of the fully-populated wrapper
`wC` dispatch to the correspondingly-named concrete callbacks. -/
theorem builder_order_commutes_witness :
    from_json Empty okBytes = Except.ok ⟨⟩ ∧
    wC.execute deps0 env0 info0 okBytes =
      (PResult.ofExcept (execute0 deps0 env0 info0 ⟨⟩)).anyhowErr ∧
    wC.instantiate deps0 env0 info0 okBytes =
      (PResult.ofExcept (instantiate0 deps0 env0 info0 ⟨⟩)).anyhowErr ∧
    wC.query rdeps0 env0 okBytes =
      (PResult.ofExcept (query0 rdeps0 env0 ⟨⟩)).anyhowErr ∧
    wC.sudo deps0 env0 okBytes =
      (PResult.ofExcept (sudo0 deps0 env0 ⟨⟩)).anyhowErr ∧
    wC.reply deps0 env0 reply_data0 =
      (PResult.ofExcept (reply0 deps0 env0 reply_data0)).anyhowErr ∧
    wC.migrate deps0 env0 okBytes =
      (PResult.ofExcept (migrate0 deps0 env0 ⟨⟩)).anyhowErr :=
  ⟨rfl,
    (builder_order_commutes execute0 instantiate0 query0 sudo0 reply0
        migrate0).2.1 deps0 env0 info0 okBytes ⟨⟩ rfl,
    (builder_order_commutes execute0 instantiate0 query0 sudo0 reply0
        migrate0).2.2.1 deps0 env0 info0 okBytes ⟨⟩ rfl,
    (builder_order_commutes execute0 instantiate0 query0 sudo0 reply0
        migrate0).2.2.2.1 rdeps0 env0 okBytes ⟨⟩ rfl,
    (builder_order_commutes execute0 instantiate0 query0 sudo0 reply0
        migrate0).2.2.2.2.1 deps0 env0 okBytes ⟨⟩ rfl,
    (builder_order_commutes execute0 instantiate0 query0 sudo0 reply0
        migrate0).2.2.2.2.2.1 deps0 env0 reply_data0,
    (builder_order_commutes execute0 instantiate0 query0 sudo0 reply0
        migrate0).2.2.2.2.2.2 deps0 env0 okBytes ⟨⟩ rfl⟩

/-- C9: re-applying the same slot's builder replaces the previous
callback without error — the result equals applying the builder once
with the second callback (so every other slot is unchanged), and the
slot's dispatch invokes the second callback. -/
theorem builder_repeat_last_write_wins
    {T1 T2 T3 E1 E2 E3 C Q T4 E4 E5 T6 E6 SA SE SB SF RE RF MA ME MB MF : Type}
    [DeserializeOwned SB] [Display SF]
    (w : ContractWrapper T1 T2 T3 E1 E2 E3 C Q T4 E4 E5 T6 E6)
    (f : PermissionedFn SA C SE Q) (g : PermissionedFn SB C SF Q)
    (fr : ReplyFn C RE Q) (gr : ReplyFn C RF Q)
    (fm : PermissionedFn MA C ME Q) (gm : PermissionedFn MB C MF Q) :
    ((w.with_sudo f).with_sudo g = w.with_sudo g) ∧
    ((w.with_reply fr).with_reply gr = w.with_reply gr) ∧
    ((w.with_migrate fm).with_migrate gm = w.with_migrate gm) ∧
    (∀ deps env msg x, from_json SB msg = Except.ok x →
      ((w.with_sudo f).with_sudo g).sudo deps env msg =
        (PResult.ofExcept (g deps env x)).anyhowErr) := by
  refine ⟨rfl, rfl, rfl, ?_⟩
  intro deps env msg x hx
  simp [ContractWrapper.sudo, hx, ContractWrapper.with_sudo,
    boxPermissionedFn]

/-- Witness for C9: replacing `sudo1` by `sudo0` dispatches to `sudo0`. -/
theorem builder_repeat_last_write_wins_witness :
    from_json Empty okBytes = Except.ok ⟨⟩ ∧
    ((w0.with_sudo sudo1).with_sudo sudo0).sudo deps0 env0 okBytes =
      (PResult.ofExcept (sudo0 deps0 env0 ⟨⟩)).anyhowErr :=
  ⟨rfl, (builder_repeat_last_write_wins w0 sudo1 sudo0 reply0 reply0
    migrate0 migrate0).2.2.2 deps0 env0 okBytes ⟨⟩ rfl⟩

/-- C10: in bridging construction the stored query closure returns
exactly the baseline query callback's value — `PResult.ofExcept` is the
identity embedding of `Ok`/`Err`, so no lifting or translation touches
query results — and the bridged context keeps the caller's own storage
and api handles, re-wrapping only the querier around the same underlying
raw querier. -/
theorem new_with_empty_query_result_identity
    {T1 T2 T3 E1 E2 E3 C Q : Type}
    (e : ContractFn T1 Empty E1 Empty) (i : ContractFn T2 Empty E2 Empty)
    (q : QueryFn T3 E3 Empty) (deps : Deps Q) (env : Env) (m : T3) :
    (ContractWrapper.new_with_empty (C := C) e i q).query_fn deps env m =
      PResult.ofExcept (q (decustomize_deps deps) env m) ∧
    (decustomize_deps deps).storage = deps.storage ∧
    (decustomize_deps deps).api = deps.api ∧
    (decustomize_deps deps).querier =
      QuerierWrapper.new deps.querier.deref ∧
    ((decustomize_deps deps).querier).deref = deps.querier.deref :=
  ⟨rfl, rfl, rfl, rfl, rfl⟩

/-- A sub-message of a copied shape lifts successfully, preserving its
correlation id, gas ceiling, reply policy and instruction content. -/
theorem customize_msg_liftable {C : Type} (sub : SubMsg Empty)
    (h : liftableShape sub.msg = true) :
    ∃ lifted : SubMsg C, customize_msg (C := C) sub = Except.ok lifted ∧
      subMsgPreserved sub lifted := by
  obtain ⟨id, msg, gas, rep⟩ := sub
  cases msg with
  | Wasm a => exact ⟨⟨id, CosmosMsg.Wasm a, gas, rep⟩, rfl, rfl, rfl, rfl, rfl⟩
  | Bank a => exact ⟨⟨id, CosmosMsg.Bank a, gas, rep⟩, rfl, rfl, rfl, rfl, rfl⟩
  | Staking a =>
      exact ⟨⟨id, CosmosMsg.Staking a, gas, rep⟩, rfl, rfl, rfl, rfl, rfl⟩
  | Distribution a =>
      exact ⟨⟨id, CosmosMsg.Distribution a, gas, rep⟩, rfl, rfl, rfl, rfl, rfl⟩
  | Custom a => simp [liftableShape] at h
  | Ibc a => exact ⟨⟨id, CosmosMsg.Ibc a, gas, rep⟩, rfl, rfl, rfl, rfl, rfl⟩
  | Stargate u v =>
      exact ⟨⟨id, CosmosMsg.Stargate u v, gas, rep⟩, rfl, rfl, rfl, rfl,
        rfl, rfl⟩
  | Gov a => simp [liftableShape] at h

/-- A sub-message of a fatal shape (`Custom` or the wildcard arm) makes
`customize_msg` diverge with one of the two fatal outcomes. -/
theorem customize_msg_fatal {C : Type} (sub : SubMsg Empty)
    (h : liftableShape sub.msg = false) :
    ∃ p, customize_msg (C := C) sub = Except.error p := by
  obtain ⟨id, msg, gas, rep⟩ := sub
  cases msg with
  | Custom a => exact ⟨PanicInfo.unreachableCustom, rfl⟩
  | Gov a => exact ⟨PanicInfo.unknownVariant, rfl⟩
  | Wasm a => simp [liftableShape] at h
  | Bank a => simp [liftableShape] at h
  | Staking a => simp [liftableShape] at h
  | Distribution a => simp [liftableShape] at h
  | Ibc a => simp [liftableShape] at h
  | Stargate u v => simp [liftableShape] at h

/-- Lifting a list of copied-shape sub-messages succeeds element-wise,
in order, preserving each sub-message's content. -/
theorem mapM_customize_msg_liftable {C : Type} (l : List (SubMsg Empty))
    (h : ∀ sub ∈ l, liftableShape sub.msg = true) :
    ∃ lifted : List (SubMsg C),
      l.mapM (customize_msg (C := C)) = Except.ok lifted ∧
      List.Forall₂ subMsgPreserved l lifted := by
  induction l with
  | nil => exact ⟨[], rfl, List.Forall₂.nil⟩
  | cons a l ih =>
      obtain ⟨b, hb, hrel⟩ :=
        customize_msg_liftable (C := C) a (h a (List.mem_cons_self a l))
      obtain ⟨bs, hbs, hrels⟩ :=
        ih (fun sub hs => h sub (List.mem_cons_of_mem a hs))
      refine ⟨b :: bs, ?_, List.Forall₂.cons hrel hrels⟩
      rw [List.mapM_cons, hb, hbs]
      rfl

/-- If some sub-message in the list has a fatal shape, lifting the list
diverges with a fatal outcome. -/
theorem mapM_customize_msg_fatal {C : Type} (l : List (SubMsg Empty))
    (h : ∃ sub ∈ l, liftableShape sub.msg = false) :
    ∃ p, l.mapM (customize_msg (C := C)) = Except.error p := by
  induction l with
  | nil => simp at h
  | cons a l ih =>
      by_cases ha : liftableShape a.msg = true
      · obtain ⟨b, hb, _⟩ := customize_msg_liftable (C := C) a ha
        obtain ⟨sub, hsub, hfatal⟩ := h
        rcases List.mem_cons.mp hsub with h1 | h2
        · rw [h1] at hfatal
          rw [ha] at hfatal
          cases hfatal
        · obtain ⟨p, hp⟩ := ih ⟨sub, h2, hfatal⟩
          refine ⟨p, ?_⟩
          rw [List.mapM_cons, hb, hp]
          rfl
      · have ha2 : liftableShape a.msg = false := by
          cases hq : liftableShape a.msg
          · rfl
          · exact absurd hq ha
        obtain ⟨p, hp⟩ := customize_msg_fatal (C := C) a ha2
        refine ⟨p, ?_⟩
        rw [List.mapM_cons, hp]
        rfl

/-- `customize_response` on a response whose sub-message list lifts
successfully builds the lifted response from the lifted sub-messages and
the original attributes, events and data. -/
theorem customize_response_eq_of_mapM {C : Type} (resp : Response Empty)
    (msgs : List (SubMsg C))
    (hm : resp.messages.mapM (customize_msg (C := C)) = Except.ok msgs) :
    customize_response (C := C) resp =
      Except.ok { messages := msgs, attributes := resp.attributes,
                  events := resp.events, data := resp.data } := by
  unfold customize_response
  rw [hm]
  simp [Response.new, Response.add_submessages, Response.add_events,
    Response.add_attributes]

/-- `customize_response` propagates the first fatal outcome of lifting
the sub-message list. -/
theorem customize_response_eq_of_mapM_fatal {C : Type}
    (resp : Response Empty) (p : PanicInfo)
    (hm : resp.messages.mapM (customize_msg (C := C)) = Except.error p) :
    customize_response (C := C) resp = Except.error p := by
  unfold customize_response
  rw [hm]
  rfl

/-- C5: extension lifting is value-preserving on responses whose
sub-messages all carry the four universal or two pass-through variants —
the lifted response has the same sub-messages in the same order (id, gas
ceiling, reply policy and instruction content preserved) and identical
events, attributes and opaque data payload. -/
theorem customize_response_value_preserving {C : Type}
    (resp : Response Empty)
    (h : ∀ sub ∈ resp.messages, liftableShape sub.msg = true) :
    ∃ lifted : Response C,
      customize_response (C := C) resp = Except.ok lifted ∧
      lifted.events = resp.events ∧
      lifted.attributes = resp.attributes ∧
      lifted.data = resp.data ∧
      List.Forall₂ subMsgPreserved resp.messages lifted.messages := by
  obtain ⟨msgs, hm, hrel⟩ :=
    mapM_customize_msg_liftable (C := C) resp.messages h
  exact ⟨{ messages := msgs, attributes := resp.attributes,
           events := resp.events, data := resp.data },
    customize_response_eq_of_mapM resp msgs hm, rfl, rfl, rfl, hrel⟩

/-- Witness for C5 at the concrete response `resp5`, which exercises all
six copied variants, lifted into the extension type `MyCustom`. -/
theorem customize_response_value_preserving_witness :
    (∀ sub ∈ resp5.messages, liftableShape sub.msg = true) ∧
    (∃ lifted : Response MyCustom,
      customize_response (C := MyCustom) resp5 = Except.ok lifted ∧
      lifted.events = resp5.events ∧
      lifted.attributes = resp5.attributes ∧
      lifted.data = resp5.data ∧
      List.Forall₂ subMsgPreserved resp5.messages lifted.messages) :=
  ⟨by decide, customize_response_value_preserving resp5 (by decide)⟩

/-- C2 counterexample: the baseline callback `executeCustom` — typed
`Response<Empty>`, since `Empty` is inhabited — produces a response whose
sub-message carries the custom-extension variant, and extension lifting
of its output does take the `unreachable!()` branch, refuting "the
lifting step never encounters the `Custom` variant". -/
theorem lifting_custom_counterexample :
    executeCustom (decustomize_deps_mut deps0) env0 info0 ⟨⟩ =
      Except.ok respCustom ∧
    customize_msg (C := MyCustom)
      { id := 1, msg := CosmosMsg.Custom ⟨⟩, gas_limit := none,
        reply_on := ReplyOn.Never } =
      Except.error PanicInfo.unreachableCustom ∧
    customize_contract_fn (C := MyCustom) executeCustom deps0 env0 info0 ⟨⟩ =
      PResult.panicked PanicInfo.unreachableCustom :=
  ⟨rfl, rfl, rfl⟩

/-- C2 (amended): during extension lifting of a baseline callback's
successful response, the fatal branches are taken exactly when a
sub-message carries the custom-extension variant (possible, since the
baseline extension type is inhabited) or an unrecognized shape; when
every sub-message is of a copied shape the lifted closure returns a
value, and when some sub-message is `Custom` or unrecognized the lifted
closure aborts (`panicked`) rather than returning a value to the
caller. -/
theorem lifting_fatal_characterization
    {T C E Q : Type} (f : ContractFn T Empty E Empty)
    (deps : DepsMut Q) (env : Env) (info : MessageInfo) (x : T)
    (resp : Response Empty)
    (hf : f (decustomize_deps_mut deps) env info x = Except.ok resp) :
    ((∀ sub ∈ resp.messages, liftableShape sub.msg = true) →
      ∃ lifted, customize_contract_fn (C := C) f deps env info x =
        PResult.ok lifted) ∧
    ((∃ sub ∈ resp.messages,
        (∃ c, sub.msg = CosmosMsg.Custom c) ∨
        (∃ g, sub.msg = CosmosMsg.Gov g)) →
      ∃ p, customize_contract_fn (C := C) f deps env info x =
        PResult.panicked p) := by
  constructor
  · intro h
    obtain ⟨msgs, hm, _⟩ :=
      mapM_customize_msg_liftable (C := C) resp.messages h
    exact ⟨{ messages := msgs, attributes := resp.attributes,
             events := resp.events, data := resp.data },
      by simp [customize_contract_fn, hf,
        customize_response_eq_of_mapM resp msgs hm]⟩
  · intro h
    obtain ⟨sub, hsub, hshape⟩ := h
    have hfatal : liftableShape sub.msg = false := by
      rcases hshape with ⟨c, hc⟩ | ⟨g, hg⟩
      · rw [hc]; rfl
      · rw [hg]; rfl
    obtain ⟨p, hp⟩ :=
      mapM_customize_msg_fatal (C := C) resp.messages ⟨sub, hsub, hfatal⟩
    refine ⟨p, ?_⟩
    simp [customize_contract_fn, hf,
      customize_response_eq_of_mapM_fatal resp p hp]

/-- Witness for amended C2: the callback `executeCustom` produces a
response with a `Custom` sub-message, and its lifted closure aborts. -/
theorem lifting_fatal_characterization_witness :
    executeCustom (decustomize_deps_mut deps0) env0 info0 ⟨⟩ =
      Except.ok respCustom ∧
    (∃ p, customize_contract_fn (C := MyCustom) executeCustom deps0 env0
        info0 ⟨⟩ = PResult.panicked p) :=
  ⟨rfl,
    (lifting_fatal_characterization executeCustom deps0 env0 info0 ⟨⟩
        respCustom rfl).2
      ⟨{ id := 1, msg := CosmosMsg.Custom ⟨⟩, gas_limit := none,
         reply_on := ReplyOn.Never },
        by simp [respCustom], Or.inl ⟨⟨⟩, rfl⟩⟩⟩

end Cw
